import Mathlib

/-!
Shallow embedding of `src/todoist.py` (silanthro/todoist): a thin adapter
over a remote to-do service client.  Pure request-building logic (the filter
builder of `get_tasks`, the kwargs dicts of `create_task` / `update_task`,
the result projection) is embedded directly; the remote client itself is an
injected fallible function (`Except ε _`), mirroring the fact that the
Python code calls `TodoistAPI` methods and lets their exceptions propagate.
-/

namespace Todoist

/-- Python truthiness of an `Optional[str]`: `None` and `""` are falsy. -/
def pyTruthy : Option String → Bool
  | none => false
  | some s => !s.isEmpty

/-- The character class of the regex `[|&!()\s]` on line 90: the vendor
grammar's special characters plus ASCII whitespace. -/
def isSpecialChar (c : Char) : Bool :=
  c = '|' || c = '&' || c = '!' || c = '(' || c = ')' ||
  c = ' ' || c = '\t' || c = '\n' || c = '\r' || c = '\x0b' || c = '\x0c'

/-- `re.sub(re.compile("[|&!()\\s]"), lambda m: "\\" + m.group(), s)`:
prefix every special character with a backslash. -/
def escapeQuery (s : String) : String :=
  String.mk (s.data.flatMap fun c => if isSpecialChar c then ['\\', c] else [c])

/-- The priority clause of line 95: `"(" + "|".join(f"p{p}" for p in priority) + ")"`. -/
def priorityClause (priority : List Nat) : String :=
  "(" ++ String.intercalate "|" (priority.map fun p => "p" ++ toString p) ++ ")"

/-- Lines 88–97 of `get_tasks`: build the `filters` list by conditional
appends, in source order.  The escaped copy of the search text is computed
(line 90) and discarded, exactly as in the source. -/
def build_filters (search_query due_date_filter : Option String)
    (priority : List Nat) (other_filters : Option String) : List String :=
  let filters : List String := []
  let filters := if pyTruthy search_query then
      let _escaped := escapeQuery (search_query.getD "")
      filters ++ ["search: " ++ search_query.getD ""]
    else filters
  let filters := if pyTruthy due_date_filter then
      filters ++ [due_date_filter.getD ""]
    else filters
  let filters := if !priority.isEmpty then
      filters ++ [priorityClause priority]
    else filters
  let filters := if pyTruthy other_filters then
      filters ++ [other_filters.getD ""]
    else filters
  filters

/-- Line 100: `filter="&".join(filters) if filters else None`. -/
def build_filter_opt (search_query due_date_filter : Option String)
    (priority : List Nat) (other_filters : Option String) : Option String :=
  let filters := build_filters search_query due_date_filter priority other_filters
  if filters.isEmpty then none else some (String.intercalate "&" filters)

/-- Spec-side description of the clause list: the present clauses, in the
fixed order search, due-date, priority, passthrough.  Each slot contributes
its clause exactly when the corresponding input is present. -/
def clausesSpec (search_query due_date_filter : Option String)
    (priority : List Nat) (other_filters : Option String) : List String :=
  (if pyTruthy search_query then ["search: " ++ search_query.getD ""] else []) ++
    (if pyTruthy due_date_filter then [due_date_filter.getD ""] else []) ++
    (if !priority.isEmpty then [priorityClause priority] else []) ++
    (if pyTruthy other_filters then [other_filters.getD ""] else [])

/-- The remote task's `due` object; only its `date` attribute is read. -/
structure Due where
  date : String
deriving DecidableEq, Repr

/-- The remote task object, restricted to the attributes `get_tasks` reads. -/
structure RemoteTask where
  id : String
  content : String
  description : String
  labels : List String
  priority : Nat
  due : Option Due
  created_at : String
deriving DecidableEq, Repr

/-- The `Task` TypedDict of lines 8–15, except that `due_date` is an
`Option String`: the comprehension on line 109 stores `None` when the
remote task has no due date, despite the declared type `str`. -/
structure Task where
  id : String
  title : String
  description : String
  labels : List String
  priority : Nat
  due_date : Option String
  created_at : String
deriving DecidableEq, Repr

/-- The per-task projection of lines 103–111. -/
def toTaskRecord (task : RemoteTask) : Task :=
  { id := task.id
    title := task.content
    description := task.description
    labels := task.labels
    priority := task.priority
    due_date := match task.due with
      | some d => some d.date
      | none => none
    created_at := task.created_at }

/-- Python slice `xs[:limit]` for an `int` limit: nonnegative limits take a
prefix; a negative limit counts from the end of the list. -/
def pySliceTo (xs : List α) (limit : Int) : List α :=
  if limit < 0 then xs.take (((xs.length : Int) + limit).toNat)
  else xs.take limit.toNat

/-- Lines 98–113: call the remote client with the project id and the built
filter (no limit is sent), then project and truncate the result with the
Python slice `tasks[:limit]`. -/
def get_tasks (client : Option String → Option String → Except ε (List RemoteTask))
    (project_id search_query due_date_filter : Option String)
    (priority : List Nat) (other_filters : Option String) (limit : Int) :
    Except ε (List Task) :=
  match client project_id
      (build_filter_opt search_query due_date_filter priority other_filters) with
  | .error e => .error e
  | .ok tasks => .ok ((pySliceTo tasks limit).map toTaskRecord)

/-- The keyword-argument dict sent by `create_task` (lines 39–49); every
key that can be absent is an `Option`. -/
structure CreateKwargs where
  content : String
  description : String
  priority : Nat
  due_date : Option String
  due_string : Option String
deriving DecidableEq, Repr

/-- Lines 39–49: start from `content`/`description`/`priority`, add
`due_date` when given, then, when `due_string` is given, delete `due_date`
and add `due_string`. -/
def create_kwargs (title description : String)
    (due_string due_date : Option String) (priority : Nat) : CreateKwargs :=
  let kwargs : CreateKwargs :=
    { content := title, description := description, priority := priority
      due_date := none, due_string := none }
  let kwargs := match due_date with
    | some d => { kwargs with due_date := some d }
    | none => kwargs
  let kwargs := match due_string with
    | some s => { kwargs with due_date := none, due_string := some s }
    | none => kwargs
  kwargs

/-- Lines 18–51: build the kwargs, call `API.add_task`, return
`"Task added"` on success; client errors propagate. -/
def create_task (addTask : CreateKwargs → Except ε Unit)
    (title description : String) (due_string due_date : Option String)
    (priority : Nat) : Except ε String :=
  match addTask (create_kwargs title description due_string due_date priority) with
  | .error e => .error e
  | .ok _ => .ok "Task added"

/-- The keyword-argument dict sent by `update_task` (lines 141–156): every
field is optional and starts absent. -/
structure UpdateKwargs where
  content : Option String
  description : Option String
  labels : Option (List String)
  priority : Option Nat
  due_date : Option String
  due_string : Option String
deriving DecidableEq, Repr

/-- Lines 141–156: each provided argument adds its key; `due_date` is added
when given, then deleted again if `due_string` is also given. -/
def update_kwargs (title description due_string due_date : Option String)
    (labels : Option (List String)) (priority : Option Nat) : UpdateKwargs :=
  let kwargs : UpdateKwargs :=
    { content := none, description := none, labels := none, priority := none
      due_date := none, due_string := none }
  let kwargs := match title with
    | some t => { kwargs with content := some t }
    | none => kwargs
  let kwargs := match description with
    | some d => { kwargs with description := some d }
    | none => kwargs
  let kwargs := match labels with
    | some l => { kwargs with labels := some l }
    | none => kwargs
  let kwargs := match priority with
    | some p => { kwargs with priority := some p }
    | none => kwargs
  let kwargs := match due_date with
    | some d => { kwargs with due_date := some d }
    | none => kwargs
  let kwargs := match due_string with
    | some s => { kwargs with due_date := none, due_string := some s }
    | none => kwargs
  kwargs

/-- Lines 116–161: build the kwargs, call `API.update_task`, return
`"Task updated"` on success; client errors propagate. -/
def update_task (updateT : String → UpdateKwargs → Except ε Unit)
    (task_id : String) (title description due_string due_date : Option String)
    (labels : Option (List String)) (priority : Option Nat) : Except ε String :=
  match updateT task_id
      (update_kwargs title description due_string due_date labels priority) with
  | .error e => .error e
  | .ok _ => .ok "Task updated"

/-- Lines 164–176: call `API.close_task`, return `"Task completed"`. -/
def complete_task (closeT : String → Except ε Unit) (task_id : String) :
    Except ε String :=
  match closeT task_id with
  | .error e => .error e
  | .ok _ => .ok "Task completed"

/-- Lines 179–191: call `API.delete_task`, return `"Task deleted"`. -/
def delete_task (deleteT : String → Except ε Unit) (task_id : String) :
    Except ε String :=
  match deleteT task_id with
  | .error e => .error e
  | .ok _ => .ok "Task deleted"

/-- Concrete remote task carrying a due date, for concrete evaluations. -/
def sampleDueTask : RemoteTask :=
  { id := "1", content := "alpha", description := "first", labels := ["home"]
    priority := 1, due := some { date := "2025-12-31" }
    created_at := "2025-01-01T00:00:00Z" }

/-- Concrete remote task without a due date, for concrete evaluations. -/
def sampleFreeTask : RemoteTask :=
  { id := "2", content := "beta", description := "second", labels := []
    priority := 4, due := none, created_at := "2025-01-02T00:00:00Z" }

/-- A conditional append of one element distributes into an appended
conditional singleton. -/
theorem ite_append_singleton (c : Prop) [Decidable c] (l : List String)
    (x : String) :
    (if c then l ++ [x] else l) = l ++ (if c then [x] else []) := by
  split <;> simp

/-- The imperatively built clause list coincides with its declarative
description: one slot per input, in the fixed source order. -/
theorem build_filters_eq_spec (sq ddf : Option String) (ps : List Nat)
    (of : Option String) :
    build_filters sq ddf ps of = clausesSpec sq ddf ps of := by
  unfold build_filters clausesSpec
  simp only [ite_append_singleton, List.nil_append, List.append_assoc]
  split_ifs <;> simp

/-- C1: the present clauses appear in the fixed order search, due-date,
priority, passthrough (the due-date and passthrough fragments verbatim),
joined by `&`; with every clause absent the filter sent to the client is
`none`. -/
theorem filter_clause_order (sq ddf : Option String) (ps : List Nat)
    (of : Option String) :
    build_filter_opt sq ddf ps of =
        (if (clausesSpec sq ddf ps of).isEmpty then none
         else some (String.intercalate "&" (clausesSpec sq ddf ps of))) ∧
      build_filter_opt none none [] none = none := by
  constructor
  · unfold build_filter_opt
    rw [build_filters_eq_spec]
  · rfl

/-- C2: a non-empty priority list contributes a parenthesized OR-clause of
`p{level}` tokens in input order to the clause list; for `[2, 4]` the
clause is exactly `(p2|p4)`. -/
theorem priority_clause_format (sq ddf of : Option String) (ps : List Nat)
    (h : ps ≠ []) :
    priorityClause ps =
        "(" ++ String.intercalate "|" (ps.map fun p => "p" ++ toString p) ++ ")" ∧
      priorityClause ps ∈ build_filters sq ddf ps of ∧
      priorityClause [2, 4] = "(p2|p4)" := by
  have hps : ps.isEmpty = false := by simpa using h
  refine ⟨rfl, ?_, by decide⟩
  rw [build_filters_eq_spec]
  unfold clausesSpec
  simp [hps]

/-- Witness for C2 at priority list `[2, 4]`. -/
theorem priority_clause_format_witness :
    ([2, 4] : List Nat) ≠ [] ∧
      (priorityClause [2, 4] =
          "(" ++
            String.intercalate "|" (([2, 4] : List Nat).map fun p => "p" ++ toString p)
            ++ ")" ∧
        priorityClause [2, 4] ∈ build_filters none none [2, 4] none ∧
        priorityClause [2, 4] = "(p2|p4)") :=
  ⟨by decide, priority_clause_format none none none [2, 4] (by decide)⟩

/-- C3: for non-empty search text the clause appended (the first clause of
the filter) is `search: ` followed by the raw text; the escaped copy of
line 90 is computed but never used, and it does differ from the raw text
on inputs with special characters. -/
theorem search_clause_unescaped (s : String) (h : s ≠ "")
    (ddf of : Option String) (ps : List Nat) :
    (build_filters (some s) ddf ps of).head? = some ("search: " ++ s) ∧
      escapeQuery "a b" = "a\\ b" ∧ escapeQuery "a b" ≠ "a b" := by
  have hs : s.isEmpty = false := by
    rw [Bool.eq_false_iff]
    intro hx
    exact h ((String.isEmpty_iff s).mp hx)
  refine ⟨?_, by decide, by decide⟩
  rw [build_filters_eq_spec]
  unfold clausesSpec
  simp [pyTruthy, hs]

/-- Witness for C3 at the search text `a b`. -/
theorem search_clause_unescaped_witness :
    ("a b" : String) ≠ "" ∧
      ((build_filters (some "a b") none [] none).head? =
          some ("search: " ++ "a b") ∧
        escapeQuery "a b" = "a\\ b" ∧ escapeQuery "a b" ≠ "a b") :=
  ⟨by decide, search_clause_unescaped "a b" (by decide) none none []⟩

/-- C4 counterexample: at the negative limit `-1` (a legal Python `int`),
the slice `tasks[:limit]` keeps all but the last element, so with two
remote tasks one record is returned — more than the claimed "at most
`limit`" and not "the first `limit` elements". -/
theorem get_tasks_negative_limit :
    get_tasks (ε := Unit)
        (fun _ _ => Except.ok [sampleDueTask, sampleFreeTask])
        none none none [] none (-1) =
      Except.ok [toTaskRecord sampleDueTask] ∧
    ¬ ((1 : Int) ≤ -1) := ⟨rfl, by decide⟩

/-- C4 amended: for every nonnegative limit, the listing operation returns
the first `limit` elements of the remote sequence (projected), hence at
most `limit` records; the client call receives no limit. -/
theorem get_tasks_truncates
    (client : Option String → Option String → Except ε (List RemoteTask))
    (pid sq ddf : Option String) (ps : List Nat) (of : Option String)
    (limit : Int) (ts : List RemoteTask)
    (hlim : 0 ≤ limit)
    (hc : client pid (build_filter_opt sq ddf ps of) = Except.ok ts) :
    get_tasks client pid sq ddf ps of limit =
        Except.ok ((ts.take limit.toNat).map toTaskRecord) ∧
      ∀ out, get_tasks client pid sq ddf ps of limit = Except.ok out →
        out.length ≤ limit.toNat := by
  have hslice : pySliceTo ts limit = ts.take limit.toNat := by
    unfold pySliceTo
    rw [if_neg (by omega)]
  constructor
  · simp [get_tasks, hc, hslice]
  · intro out hout
    simp [get_tasks, hc, hslice] at hout
    subst hout
    simp [List.length_take]

/-- Witness for C4's amended theorem at limit `1` and two remote tasks. -/
theorem get_tasks_truncates_witness :
    (0 : Int) ≤ 1 ∧
      ((fun (_ : Option String) (_ : Option String) =>
            Except.ok (ε := Unit) [sampleDueTask, sampleFreeTask]) none
          (build_filter_opt none none [] none) =
        Except.ok [sampleDueTask, sampleFreeTask]) ∧
      (get_tasks (ε := Unit)
            (fun _ _ => Except.ok [sampleDueTask, sampleFreeTask])
            none none none [] none 1 =
          Except.ok
            (([sampleDueTask, sampleFreeTask].take (Int.toNat 1)).map toTaskRecord) ∧
        ∀ out,
          get_tasks (ε := Unit)
              (fun _ _ => Except.ok [sampleDueTask, sampleFreeTask])
              none none none [] none 1 = Except.ok out →
            out.length ≤ Int.toNat 1) :=
  ⟨by decide, rfl,
    get_tasks_truncates (ε := Unit)
      (fun _ _ => Except.ok [sampleDueTask, sampleFreeTask])
      none none none [] none 1 [sampleDueTask, sampleFreeTask] (by decide) rfl⟩

/-- C5: in both create and update, a provided due-string appears in the
outgoing kwargs and the due-date key is absent, even when a due-date
argument was also supplied. -/
theorem due_string_suppresses_due_date (title description s : String)
    (cdd : Option String) (cprio : Nat)
    (ut ud udd : Option String) (ul : Option (List String)) (up : Option Nat) :
    ((create_kwargs title description (some s) cdd cprio).due_string = some s ∧
      (create_kwargs title description (some s) cdd cprio).due_date = none) ∧
    ((update_kwargs ut ud (some s) udd ul up).due_string = some s ∧
      (update_kwargs ut ud (some s) udd ul up).due_date = none) := by
  refine ⟨⟨?_, ?_⟩, ?_, ?_⟩
  · cases cdd <;> rfl
  · cases cdd <;> rfl
  · cases ut <;> cases ud <;> cases udd <;> cases ul <;> cases up <;> rfl
  · cases ut <;> cases ud <;> cases udd <;> cases ul <;> cases up <;> rfl

/-- C6 counterexample: with both `due_string` and `due_date` provided to
update, the explicitly provided `due_date` argument is absent from the
outgoing kwargs, so it is not the case that exactly the provided fields
appear. -/
theorem update_due_date_dropped :
    (some "2025-12-31" : Option String) ≠ none ∧
      (update_kwargs none none (some "tomorrow") (some "2025-12-31")
          none none).due_date = none :=
  ⟨by decide, rfl⟩

/-- C6 amended: the outgoing update request carries exactly the provided
fields and omits the absent ones, except that `due_date` is dropped
whenever `due_string` is also provided. -/
theorem update_kwargs_exactly_provided
    (title description due_string due_date : Option String)
    (labels : Option (List String)) (priority : Option Nat) :
    update_kwargs title description due_string due_date labels priority =
      { content := title, description := description, labels := labels
        priority := priority
        due_date := match due_string with
          | some _ => none
          | none => due_date
        due_string := due_string } := by
  unfold update_kwargs
  cases title <;> cases description <;> cases labels <;> cases priority <;>
    cases due_date <;> cases due_string <;> rfl

/-- C7: whenever the remote-client call succeeds, each mutating operation
returns its fixed confirmation string. -/
theorem confirmation_strings (addT : CreateKwargs → Except ε Unit)
    (updT : String → UpdateKwargs → Except ε Unit)
    (closeT deleteT : String → Except ε Unit)
    (title description : String) (cds cdd : Option String) (cprio : Nat)
    (tid : String) (ut ud us udd : Option String) (ul : Option (List String))
    (up : Option Nat) :
    (addT (create_kwargs title description cds cdd cprio) = Except.ok () →
        create_task addT title description cds cdd cprio = Except.ok "Task added") ∧
      (updT tid (update_kwargs ut ud us udd ul up) = Except.ok () →
        update_task updT tid ut ud us udd ul up = Except.ok "Task updated") ∧
      (closeT tid = Except.ok () →
        complete_task closeT tid = Except.ok "Task completed") ∧
      (deleteT tid = Except.ok () →
        delete_task deleteT tid = Except.ok "Task deleted") := by
  refine ⟨fun h => ?_, fun h => ?_, fun h => ?_, fun h => ?_⟩ <;>
    simp [create_task, update_task, complete_task, delete_task, h]

/-- Witness for C7 with always-succeeding clients. -/
theorem confirmation_strings_witness :
    create_task (ε := Unit) (fun _ => Except.ok ()) "t" "" none none 1 =
        Except.ok "Task added" ∧
      update_task (ε := Unit) (fun _ _ => Except.ok ()) "id"
          none none none none none none = Except.ok "Task updated" ∧
      complete_task (ε := Unit) (fun _ => Except.ok ()) "id" =
        Except.ok "Task completed" ∧
      delete_task (ε := Unit) (fun _ => Except.ok ()) "id" =
        Except.ok "Task deleted" := by
  have h := confirmation_strings (ε := Unit) (fun _ => Except.ok ())
    (fun _ _ => Except.ok ()) (fun _ => Except.ok ()) (fun _ => Except.ok ())
    "t" "" none none 1 "id" none none none none none none
  exact ⟨h.1 rfl, h.2.1 rfl, h.2.2.1 rfl, h.2.2.2 rfl⟩

/-- C8: every operation yields an error exactly when its underlying client
call does, and propagates that very error unmodified; a confirmation
string or task list is produced only on client success. -/
theorem errors_propagate
    (gclient : Option String → Option String → Except ε (List RemoteTask))
    (addT : CreateKwargs → Except ε Unit)
    (updT : String → UpdateKwargs → Except ε Unit)
    (closeT deleteT : String → Except ε Unit)
    (pid sq ddf : Option String) (ps : List Nat) (of : Option String)
    (limit : Int)
    (title description : String) (cds cdd : Option String) (cprio : Nat)
    (tid : String) (ut ud us udd : Option String) (ul : Option (List String))
    (up : Option Nat) (e : ε) :
    (get_tasks gclient pid sq ddf ps of limit = Except.error e ↔
        gclient pid (build_filter_opt sq ddf ps of) = Except.error e) ∧
      (create_task addT title description cds cdd cprio = Except.error e ↔
        addT (create_kwargs title description cds cdd cprio) = Except.error e) ∧
      (update_task updT tid ut ud us udd ul up = Except.error e ↔
        updT tid (update_kwargs ut ud us udd ul up) = Except.error e) ∧
      (complete_task closeT tid = Except.error e ↔
        closeT tid = Except.error e) ∧
      (delete_task deleteT tid = Except.error e ↔
        deleteT tid = Except.error e) := by
  refine ⟨?_, ?_, ?_, ?_, ?_⟩
  · cases hg : gclient pid (build_filter_opt sq ddf ps of) <;>
      simp [get_tasks, hg]
  · cases ha : addT (create_kwargs title description cds cdd cprio) <;>
      simp [create_task, ha]
  · cases hu : updT tid (update_kwargs ut ud us udd ul up) <;>
      simp [update_task, hu]
  · cases hc : closeT tid <;> simp [complete_task, hc]
  · cases hd : deleteT tid <;> simp [delete_task, hd]

/-- C9: an empty string for the search text, due-date filter, or
passthrough filter is falsy, hence treated exactly like `none`, and an
empty priority list contributes no clause: the clause count is the number
of truthy string inputs. -/
theorem empty_treated_as_absent (sq ddf : Option String) (ps : List Nat)
    (of : Option String) :
    pyTruthy (some "") = false ∧ pyTruthy none = false ∧
      build_filter_opt (some "") ddf ps of = build_filter_opt none ddf ps of ∧
      build_filter_opt sq (some "") ps of = build_filter_opt sq none ps of ∧
      build_filter_opt sq ddf ps (some "") = build_filter_opt sq ddf ps none ∧
      (build_filters sq ddf [] of).length =
        (if pyTruthy sq then 1 else 0) + (if pyTruthy ddf then 1 else 0) +
          (if pyTruthy of then 1 else 0) := by
  refine ⟨rfl, rfl, rfl, rfl, rfl, ?_⟩
  rw [build_filters_eq_spec]
  unfold clausesSpec
  cases hsq : pyTruthy sq <;> cases hddf : pyTruthy ddf <;>
    cases hof : pyTruthy of <;>
      simp [hsq, hddf, hof]

/-- C10: each record produced by the listing operation comes from a remote
task by the field-for-field projection; in particular `due_date` is `none`
whenever the remote task carries no due date, and the remaining fields are
copied directly. -/
theorem task_record_fields
    (client : Option String → Option String → Except ε (List RemoteTask))
    (pid sq ddf : Option String) (ps : List Nat) (of : Option String)
    (limit : Int) (ts : List RemoteTask) (rs : List Task)
    (hc : client pid (build_filter_opt sq ddf ps of) = Except.ok ts)
    (hr : get_tasks client pid sq ddf ps of limit = Except.ok rs) :
    ∀ r ∈ rs, ∃ t ∈ ts,
      r.id = t.id ∧ r.title = t.content ∧ r.description = t.description ∧
        r.labels = t.labels ∧ r.priority = t.priority ∧
        r.created_at = t.created_at ∧
        r.due_date = Option.map Due.date t.due ∧
        (t.due = none → r.due_date = none) := by
  have hrs : rs = (pySliceTo ts limit).map toTaskRecord := by
    simp [get_tasks, hc] at hr
    exact hr.symm
  subst hrs
  intro r hrmem
  rcases List.mem_map.mp hrmem with ⟨t, htmem, rfl⟩
  have hsub : t ∈ ts := by
    have hss : pySliceTo ts limit ⊆ ts := by
      unfold pySliceTo
      split <;> exact List.take_subset _ _
    exact hss htmem
  refine ⟨t, hsub, rfl, rfl, rfl, rfl, rfl, rfl, ?_, ?_⟩
  · cases hdue : t.due <;> simp [toTaskRecord, hdue]
  · intro hd
    simp [toTaskRecord, hd]

/-- Witness for C10 with a two-task remote result, one task with a due
date and one without. -/
theorem task_record_fields_witness :
    ((fun (_ : Option String) (_ : Option String) =>
          Except.ok (ε := Unit) [sampleDueTask, sampleFreeTask]) none
        (build_filter_opt none none [] none) =
      Except.ok [sampleDueTask, sampleFreeTask]) ∧
      (∀ r ∈ (pySliceTo [sampleDueTask, sampleFreeTask] 10).map toTaskRecord,
        ∃ t ∈ [sampleDueTask, sampleFreeTask],
          r.id = t.id ∧ r.title = t.content ∧ r.description = t.description ∧
            r.labels = t.labels ∧ r.priority = t.priority ∧
            r.created_at = t.created_at ∧
            r.due_date = Option.map Due.date t.due ∧
            (t.due = none → r.due_date = none)) :=
  ⟨rfl,
    task_record_fields (ε := Unit)
      (fun _ _ => Except.ok [sampleDueTask, sampleFreeTask])
      none none none [] none 10 [sampleDueTask, sampleFreeTask]
      ((pySliceTo [sampleDueTask, sampleFreeTask] 10).map toTaskRecord) rfl rfl⟩

end Todoist
